import Mathlib

/-!
Verification of the friedprotato portfolio editor and carousel.

Shallow embedding of the content-block editor (`ContentBlockEditor.tsx`),
the carousel (`ContentBlock.tsx`), the lightbox (`ImageLightbox.tsx`) and
the two API routes (`app/api/profile/route.ts`, `app/api/upload/route.ts`),
with theorems checking the specification's claims against the code.
-/

namespace FriedProtato

/-- Model of a file selected for upload: name, MIME type and size in bytes
(the fields of the browser `File` object that the code inspects). -/
structure UploadFile where
  name : String
  mime : String
  size : Nat
deriving DecidableEq, Repr

/-- Model of the component state of `ContentBlockEditor` (the `useState`
hooks: `type`, `content`, `hasDuration`, `duration`, `hasImages`, `images`,
`imageLinks`, `previewIndex`). -/
structure EditorState where
  blockType : String
  content : String
  hasDuration : Bool
  duration : String
  hasImages : Bool
  images : List String
  imageLinks : List String
  previewIndex : Nat
deriving DecidableEq, Repr

/-- Model of the argument tuple passed to the `onSave` callback by
`handleSave`: `(type, content, duration?, images?, imageLinks?)`. -/
structure SavedBlock where
  blockType : String
  content : String
  duration : Option String
  images : Option (List String)
  imageLinks : Option (List String)
deriving DecidableEq, Repr

/-- Reset state used by the initial `useState` calls and by `handleClose`
when no `initialData` is present. -/
def initialEditorState : EditorState :=
  { blockType := "title", content := "", hasDuration := false, duration := "",
    hasImages := false, images := [], imageLinks := [], previewIndex := 0 }

/-- Executable model of JavaScript `String.prototype.trim`: drop leading
and trailing whitespace characters from a character list. -/
def trimChars (cs : List Char) : List Char :=
  ((cs.dropWhile Char.isWhitespace).reverse.dropWhile Char.isWhitespace).reverse

/-- Executable model of `s.trim()` on a whole string. -/
def strTrim (s : String) : String :=
  String.mk (trimChars s.data)

/-- Model of a single upload's server response, as observed by the client:
`ok` when `response.ok` with the JSON body's `imageUrl`, `err` with the
error text otherwise. -/
inductive ServerResp where
  | ok (imageUrl : String)
  | err (msg : String)
deriving DecidableEq, Repr

namespace ContentBlockEditor

/-- Embeds `handleSave` in `ContentBlockEditor.tsx`, lines 65–80, together
with the `handleClose` it calls on success (which resets the state only
when there is no `initialData`, i.e. when not editing).  Returns the
`onSave` argument tuple (`none` when the save is rejected) and the
resulting component state. -/
def handleSaveRun (isEditing : Bool) (st : EditorState) :
    Option SavedBlock × EditorState :=
  if strTrim st.content == "" && st.images.length == 0 then
    (none, st)
  else
    (some
      { blockType := st.blockType
        content := st.content
        duration :=
          if st.hasDuration && strTrim st.duration != "" then some st.duration
          else none
        images :=
          if st.hasImages && st.images.length > 0 then some st.images
          else none
        imageLinks :=
          if st.hasImages && st.imageLinks.length > 0 then some st.imageLinks
          else none },
     if isEditing then st else initialEditorState)

/-- Client-side MIME allow-list in `handleFileUpload`, line 107. -/
def validTypes : List String :=
  ["image/jpeg", "image/jpg", "image/png", "image/gif", "image/webp"]

/-- Client-side size cap in `handleFileUpload`, line 108. -/
def maxSize : Nat := 5 * 1024 * 1024

/-- Holds when one file passes the client-side pre-check of
`handleFileUpload` (lines 111–121): its MIME type is in the allow-list and
its size does not exceed `maxSize` (the code rejects on
`file.size > maxSize`). -/
def clientFileValid (f : UploadFile) : Bool :=
  validTypes.contains f.mime && !(decide (f.size > maxSize))

/-- Embeds the `uploadedUrls` accumulated by the sequential upload loop
(lines 137–161): each file whose response is `ok` contributes its
`imageUrl`; a failed file is reported and skipped (`continue`). -/
def uploadResults (batch : List (UploadFile × ServerResp)) : List String :=
  batch.filterMap fun fr =>
    match fr.2 with
    | .ok url => some url
    | .err _ => none

/-- Embeds `handleFileUpload` in `ContentBlockEditor.tsx`, lines 103–177.
The batch pairs each selected file with the server's response to its
upload request.  Returns the resulting editor state and the list of files
for which a network request was issued.  Empty selection returns early;
any file failing the type/size pre-check aborts the whole batch before any
request; a missing auth token aborts before any request; otherwise every
file is uploaded in order and the successful URLs are appended to
`images`, with an equal number of empty-string link placeholders appended
to `imageLinks`. -/
def handleFileUpload (token : Option String)
    (batch : List (UploadFile × ServerResp)) (st : EditorState) :
    EditorState × List UploadFile :=
  if batch.isEmpty then (st, [])
  else if !(batch.all fun fr => clientFileValid fr.1) then (st, [])
  else
    match token with
    | none => (st, [])
    | some _ =>
      let urls := uploadResults batch
      ({ st with
          images := st.images ++ urls
          imageLinks := st.imageLinks ++ List.replicate urls.length "" },
       batch.map Prod.fst)

/-- Embeds the index-removal used by `handleRemoveImage` (lines 180–181):
`prev.filter((_, i) => i !== index)` — keep exactly the entries whose
position differs from `index`. -/
def removeAtIndex (l : List String) (index : Nat) : List String :=
  (l.enum.filter fun p => p.1 != index).map Prod.snd

/-- Embeds `handleRemoveImage` in `ContentBlockEditor.tsx`, lines 179–185:
filters position `index` out of both `images` and `imageLinks`, and clamps
the preview index with `Math.max(0, images.length - 2)` whenever
`previewIndex >= images.length - 1` (both read from the pre-removal
`images`; JavaScript arithmetic, hence the `Int` cast). -/
def handleRemoveImage (st : EditorState) (index : Nat) : EditorState :=
  { st with
    images := removeAtIndex st.images index
    imageLinks := removeAtIndex st.imageLinks index
    previewIndex :=
      if (st.previewIndex : Int) ≥ (st.images.length : Int) - 1 then
        (max 0 ((st.images.length : Int) - 2)).toNat
      else st.previewIndex }

/-- Embeds the `hasImages` checkbox (lines 292–306): its `onChange` only
calls `setHasImages(e.target.checked)`. -/
def setHasImagesToggle (st : EditorState) (b : Bool) : EditorState :=
  { st with hasImages := b }

end ContentBlockEditor

namespace ContentBlock

/-- Embeds `handleNext` in `ContentBlock.tsx`, lines 35–39:
`setActiveIndex(prev => prev < images.length - 1 ? prev + 1 : 0)`. -/
def handleNext (total idx : Nat) : Nat :=
  if idx < total - 1 then idx + 1 else 0

/-- Embeds `handlePrevious` in `ContentBlock.tsx`, lines 29–33:
`setActiveIndex(prev => prev > 0 ? prev - 1 : images.length - 1)`. -/
def handlePrevious (total idx : Nat) : Nat :=
  if idx > 0 then idx - 1 else total - 1

end ContentBlock

namespace ImageLightbox

/-- Embeds `handlePrevious` in `ImageLightbox.tsx`, lines 70–72:
`setCurrentIndex(prev => prev > 0 ? prev - 1 : images.length - 1)`. -/
def handlePrevious (total idx : Nat) : Nat :=
  if idx > 0 then idx - 1 else total - 1

/-- Embeds `handleNext` in `ImageLightbox.tsx`, lines 74–76:
`setCurrentIndex(prev => prev < images.length - 1 ? prev + 1 : 0)`. -/
def handleNext (total idx : Nat) : Nat :=
  if idx < total - 1 then idx + 1 else 0

end ImageLightbox

/-- Model of the lightbox component state: the `isOpen` prop and the
`currentIndex` `useState` hook of `ImageLightbox.tsx`. -/
structure LightboxState where
  isOpen : Bool
  currentIndex : Nat
deriving DecidableEq, Repr

namespace ImageLightbox

/-- Embeds the document-level keyboard listeners of `ImageLightbox.tsx`
(lines 38–68): the `Escape` handler is registered while `isOpen`; the
`ArrowLeft`/`ArrowRight` handler is registered while
`isOpen && images.length > 1` and dispatches to `handlePrevious` /
`handleNext`.  Any other key, or any key while closed, changes nothing. -/
def pressKey (total : Nat) (key : String) (lb : LightboxState) :
    LightboxState :=
  if !lb.isOpen then lb
  else if key == "Escape" then { lb with isOpen := false }
  else if decide (total > 1) && key == "ArrowLeft" then
    { lb with currentIndex := handlePrevious total lb.currentIndex }
  else if decide (total > 1) && key == "ArrowRight" then
    { lb with currentIndex := handleNext total lb.currentIndex }
  else lb

end ImageLightbox

/-- Model of the combined view state of one rendered `ContentBlock` with
its lightbox: the carousel's `activeIndex`, the `lightboxOpen` flag, and
the mounted lightbox's `currentIndex`. -/
structure BlockView where
  activeIndex : Nat
  lightboxOpen : Bool
  lightboxIndex : Nat
deriving DecidableEq, Repr

namespace ContentBlock

/-- Embeds `handleImageClick` (lines 41–46) together with the lightbox
mount (lines 161–169): `setLightboxOpen(true)` renders `ImageLightbox`
with `initialIndex={activeIndex}`, whose `useState(initialIndex)` and
`useEffect` on `initialIndex` set `currentIndex` to that value. -/
def openLightbox (bv : BlockView) : BlockView :=
  { bv with lightboxOpen := true, lightboxIndex := bv.activeIndex }

/-- Lightbox next-navigation inside the combined view: the lightbox's
`handleNext` writes only `currentIndex` via `setCurrentIndex`. -/
def lightboxNextOp (total : Nat) (bv : BlockView) : BlockView :=
  { bv with lightboxIndex := ImageLightbox.handleNext total bv.lightboxIndex }

/-- Lightbox previous-navigation inside the combined view: the lightbox's
`handlePrevious` writes only `currentIndex` via `setCurrentIndex`. -/
def lightboxPreviousOp (total : Nat) (bv : BlockView) : BlockView :=
  { bv with
    lightboxIndex := ImageLightbox.handlePrevious total bv.lightboxIndex }

/-- Lightbox thumbnail selection inside the combined view (lines 197–203
of `ImageLightbox.tsx`): `setCurrentIndex(idx)` only. -/
def lightboxSelectThumb (bv : BlockView) (i : Nat) : BlockView :=
  { bv with lightboxIndex := i }

end ContentBlock

/-- Modelled from the spec: the built-in default profile document
(`@/lib/defaultProfile` is imported by the route but is not under `src/`).
The GET route only passes it through, so its content is opaque here. -/
def defaultProfile : String := "defaultProfile"

/-- Model of an HTTP response from an API route: `jsonOk` for a 200 JSON
document, `errorResp` for a JSON error payload with a status code. -/
inductive ApiResult where
  | jsonOk (doc : String)
  | errorResp (status : Nat) (msg : String)
deriving DecidableEq, Repr

namespace ProfileRoute

/-- Embeds `GET` in `app/api/profile/route.ts`, lines 32–69.  The three
`Except` arguments model the outcomes of the three awaited backend calls
(CREATE TABLE, SELECT latest row — `none` when the table is empty — and
INSERT of the default document); a `.error` models a thrown failure, which
lands in the route's `catch` that returns the default document.  Returns
the HTTP response and whether the default-document INSERT was reached. -/
def GET (createTable : Except String Unit)
    (selectLatest : Except String (Option String))
    (insertDefault : Except String Unit) : ApiResult × Bool :=
  match createTable with
  | .error _ => (.jsonOk defaultProfile, false)
  | .ok _ =>
    match selectLatest with
    | .error _ => (.jsonOk defaultProfile, false)
    | .ok none =>
      match insertDefault with
      | .error _ => (.jsonOk defaultProfile, true)
      | .ok _ => (.jsonOk defaultProfile, true)
    | .ok (some d) => (.jsonOk d, false)

end ProfileRoute

namespace UploadRoute

/-- Server-side MIME allow-list in `app/api/upload/route.ts`, line 53. -/
def validTypes : List String :=
  ["image/jpeg", "image/jpg", "image/png", "image/gif", "image/webp"]

/-- Server-side size cap in `app/api/upload/route.ts`, line 62. -/
def maxSize : Nat := 5 * 1024 * 1024

/-- Holds when the server-side type/size validation of the upload `POST`
(lines 52–68) passes: the route rejects with 400 when the MIME type is
outside the allow-list or when `file.size > maxSize`. -/
def serverValidationPasses (f : UploadFile) : Bool :=
  validTypes.contains f.mime && !(decide (f.size > maxSize))

end UploadRoute

/-! Concrete fixtures used by counterexamples and witnesses. -/

/-- Editor state with empty text, one stored image, and the `hasImages`
toggle off (reachable by uploading an image and then unchecking the
toggle and clearing the text). -/
def c1CounterexampleState : EditorState :=
  { blockType := "title", content := "", hasDuration := false, duration := "",
    hasImages := false, images := ["data:image/png;base64,AAAA"],
    imageLinks := [""], previewIndex := 0 }

/-- Block emitted by `handleSave` from `c1CounterexampleState`. -/
def c1CounterexampleBlock : SavedBlock :=
  { blockType := "title", content := "", duration := none,
    images := none, imageLinks := none }

/-- Oversized PNG file (one byte over the 5 MiB cap). -/
def fileBig : UploadFile := ⟨"big.png", "image/png", 5 * 1024 * 1024 + 1⟩

/-- Valid small PNG file. -/
def fileOk1 : UploadFile := ⟨"a.png", "image/png", 1024⟩

/-- Valid small JPEG file. -/
def fileOk2 : UploadFile := ⟨"b.jpg", "image/jpeg", 2048⟩

/-- Valid small WebP file. -/
def fileOk3 : UploadFile := ⟨"c.webp", "image/webp", 512⟩

/-- Batch with one oversized file and two valid files. -/
def c2BadBatch : List (UploadFile × ServerResp) :=
  [(fileBig, .ok "u0"), (fileOk1, .ok "u1"), (fileOk2, .ok "u2")]

/-- Valid batch whose middle upload fails server-side. -/
def c2GoodBatch : List (UploadFile × ServerResp) :=
  [(fileOk1, .ok "u1"), (fileOk2, .err "Unauthorized"), (fileOk3, .ok "u3")]

/-- Editor state with one stored image and the toggle on. -/
def c1ToggleOnState : EditorState :=
  { initialEditorState with
    hasImages := true
    images := ["u"]
    imageLinks := [""] }

/-- Block emitted by `handleSave` from `c1ToggleOnState`. -/
def c1ToggleOnBlock : SavedBlock :=
  { blockType := "title", content := "", duration := none,
    images := some ["u"], imageLinks := some [""] }

/-- Editor state with two images whose last image is previewed. -/
def c5State : EditorState :=
  { initialEditorState with
    images := ["a", "b"]
    imageLinks := ["", ""]
    previewIndex := 1 }

/-! Helper lemmas. -/

/-- Members of `enumFrom n l` carry indices at least `n`. -/
theorem enumFrom_fst_ge (n : Nat) (l : List String) :
    ∀ p ∈ List.enumFrom n l, n ≤ p.1 := by
  induction l generalizing n with
  | nil => simp [List.enumFrom]
  | cons a t ih =>
    intro p hp
    simp only [List.enumFrom, List.mem_cons] at hp
    rcases hp with rfl | hp
    · exact Nat.le_refl n
    · exact Nat.le_of_succ_le (ih (n + 1) p hp)

/-- Projecting the values back out of `enumFrom` returns the list. -/
theorem enumFrom_map_snd_eq (n : Nat) (l : List String) :
    (List.enumFrom n l).map Prod.snd = l := by
  induction l generalizing n with
  | nil => rfl
  | cons a t ih => simp [List.enumFrom, ih]

/-- Filtering index `n + i` out of `enumFrom n l` erases position `i`. -/
theorem filter_enumFrom_eq_eraseIdx (l : List String) (n i : Nat) :
    ((List.enumFrom n l).filter fun p => p.1 != n + i).map Prod.snd =
      l.eraseIdx i := by
  induction l generalizing n i with
  | nil => simp [List.enumFrom, List.eraseIdx]
  | cons a t ih =>
    cases i with
    | zero =>
      simp only [List.enumFrom, Nat.add_zero, List.filter_cons]
      have h1 : (n != n) = false := by simp
      have h2 : (List.enumFrom (n + 1) t).filter (fun p => p.1 != n) =
          List.enumFrom (n + 1) t := by
        rw [List.filter_eq_self]
        intro p hp
        have := enumFrom_fst_ge (n + 1) t p hp
        simp only [bne_iff_ne, ne_eq]
        omega
      rw [h1, if_neg (by simp), h2, enumFrom_map_snd_eq]
      rfl
    | succ j =>
      simp only [List.enumFrom, List.filter_cons]
      have h1 : (n != n + (j + 1)) = true := by
        simp only [bne_iff_ne, ne_eq]
        omega
      have h2 : n + (j + 1) = (n + 1) + j := by omega
      rw [h1, if_pos rfl, List.map_cons, h2, ih (n + 1) j]
      rfl

/-- The JavaScript-style index filter agrees with `List.eraseIdx`. -/
theorem removeAtIndex_eq_eraseIdx (l : List String) (i : Nat) :
    ContentBlockEditor.removeAtIndex l i = l.eraseIdx i := by
  have h := filter_enumFrom_eq_eraseIdx l 0 i
  simpa [ContentBlockEditor.removeAtIndex, List.enum] using h

/-- Carousel `handleNext` agrees with increment modulo `total` on in-range
indices. -/
theorem handleNext_eq_mod (total idx : Nat) (h : idx < total) :
    ContentBlock.handleNext total idx = (idx + 1) % total := by
  unfold ContentBlock.handleNext
  by_cases hc : idx < total - 1
  · rw [if_pos hc, Nat.mod_eq_of_lt (by omega)]
  · rw [if_neg hc]
    have hidx : idx = total - 1 := by omega
    subst hidx
    have ht : total - 1 + 1 = total := by omega
    rw [ht, Nat.mod_self]

/-- Iterating the carousel `handleNext` `k` times adds `k` modulo
`total`. -/
theorem handleNext_iterate (total k idx : Nat) (h : idx < total) :
    Nat.iterate (ContentBlock.handleNext total) k idx = (idx + k) % total := by
  induction k generalizing idx with
  | zero =>
    simpa using (Nat.mod_eq_of_lt h).symm
  | succ n ih =>
    rw [Function.iterate_succ_apply, handleNext_eq_mod total idx h,
      ih _ (Nat.mod_lt _ (by omega))]
    conv_rhs => rw [show idx + (n + 1) = (idx + 1) + n by omega]
    exact Nat.mod_add_mod (idx + 1) total n

/-- Lightbox `handleNext` agrees with increment modulo `total` on in-range
indices. -/
theorem lightboxNext_eq_mod (total idx : Nat) (h : idx < total) :
    ImageLightbox.handleNext total idx = (idx + 1) % total := by
  unfold ImageLightbox.handleNext
  by_cases hc : idx < total - 1
  · rw [if_pos hc, Nat.mod_eq_of_lt (by omega)]
  · rw [if_neg hc]
    have hidx : idx = total - 1 := by omega
    subst hidx
    have ht : total - 1 + 1 = total := by omega
    rw [ht, Nat.mod_self]

/-- Lightbox `handlePrevious` agrees with decrement modulo `total` on
in-range indices. -/
theorem lightboxPrevious_eq_mod (total idx : Nat) (h : idx < total) :
    ImageLightbox.handlePrevious total idx = (idx + total - 1) % total := by
  unfold ImageLightbox.handlePrevious
  by_cases hc : idx > 0
  · rw [if_pos hc, show idx + total - 1 = (idx - 1) + total by omega,
      Nat.add_mod_right, Nat.mod_eq_of_lt (by omega)]
  · rw [if_neg hc, show idx + total - 1 = total - 1 by omega,
      Nat.mod_eq_of_lt (by omega)]

/-- Characterization of the block emitted by a successful save. -/
theorem handleSaveRun_emit (e : Bool) (st : EditorState) (b : SavedBlock)
    (h : (ContentBlockEditor.handleSaveRun e st).1 = some b) :
    b = { blockType := st.blockType
          content := st.content
          duration :=
            if st.hasDuration && strTrim st.duration != "" then
              some st.duration
            else none
          images :=
            if st.hasImages && st.images.length > 0 then some st.images
            else none
          imageLinks :=
            if st.hasImages && st.imageLinks.length > 0 then
              some st.imageLinks
            else none } := by
  unfold ContentBlockEditor.handleSaveRun at h
  split at h
  · simp at h
  · simpa using h.symm

/-! Claim theorems. -/

/-- C3: for every non-empty image sequence and in-range `activeIndex`,
`next()` sets the index to `(activeIndex + 1) mod total`, and iterating
`next()` `total` times returns the index to its original value. -/
theorem c3_carousel_next_circular (total idx : Nat)
    (htotal : 0 < total) (hidx : idx < total) :
    ContentBlock.handleNext total idx = (idx + 1) % total ∧
    Nat.iterate (ContentBlock.handleNext total) total idx = idx := by
  refine ⟨handleNext_eq_mod total idx hidx, ?_⟩
  rw [handleNext_iterate total total idx hidx, Nat.add_mod_right,
    Nat.mod_eq_of_lt hidx]

/-- Witness for C3 at `total = 5`, `activeIndex = 3`. -/
theorem c3_carousel_next_circular_witness :
    ContentBlock.handleNext 5 3 = (3 + 1) % 5 ∧
    Nat.iterate (ContentBlock.handleNext 5) 5 3 = 3 :=
  c3_carousel_next_circular 5 3 (by decide) (by decide)

/-- C1 counterexample: from an editor state with empty text, one stored
image, and the `hasImages` toggle off, save succeeds, yet the emitted
block has empty content and no images field — refuting the claim's final
universal as stated. -/
theorem c1_save_counterexample :
    (ContentBlockEditor.handleSaveRun true c1CounterexampleState).1 =
      some c1CounterexampleBlock ∧
    c1CounterexampleBlock.content = "" ∧
    c1CounterexampleBlock.images = none := by
  refine ⟨by decide, rfl, rfl⟩

/-- C1 (amended): saving with empty trimmed text and zero stored images is
rejected (no `onSave`, state unchanged); saving with empty text and at
least one stored image succeeds; saving with non-empty trimmed text
succeeds; every successful save starts from a state with non-empty trimmed
text or at least one stored image; and when the `hasImages` toggle is on,
the emitted block has non-empty content or a non-empty images field (with
the toggle off, stored images are suppressed, so a successful save may
emit a block with empty content and no images). -/
theorem c1_save_validation_amended :
    (∀ (e : Bool) (st : EditorState), strTrim st.content = "" →
      st.images = [] → ContentBlockEditor.handleSaveRun e st = (none, st)) ∧
    (∀ (e : Bool) (st : EditorState), strTrim st.content = "" →
      st.images ≠ [] →
      (ContentBlockEditor.handleSaveRun e st).1.isSome = true) ∧
    (∀ (e : Bool) (st : EditorState), strTrim st.content ≠ "" →
      (ContentBlockEditor.handleSaveRun e st).1.isSome = true) ∧
    (∀ (e : Bool) (st : EditorState),
      (ContentBlockEditor.handleSaveRun e st).1.isSome = true →
      strTrim st.content ≠ "" ∨ st.images ≠ []) ∧
    (∀ (e : Bool) (st : EditorState) (b : SavedBlock), st.hasImages = true →
      (ContentBlockEditor.handleSaveRun e st).1 = some b →
      b.content ≠ "" ∨ ∃ l, b.images = some l ∧ l ≠ []) := by
  refine ⟨?_, ?_, ?_, ?_, ?_⟩
  · intro e st h1 h2
    simp [ContentBlockEditor.handleSaveRun, h1, h2]
  · intro e st h1 h2
    simp [ContentBlockEditor.handleSaveRun, h1, h2]
  · intro e st h1
    simp [ContentBlockEditor.handleSaveRun, h1]
  · intro e st h
    by_cases h1 : strTrim st.content = ""
    · by_cases h2 : st.images = []
      · simp [ContentBlockEditor.handleSaveRun, h1, h2] at h
      · exact Or.inr h2
    · exact Or.inl h1
  · intro e st b himg hsave
    rw [handleSaveRun_emit e st b hsave]
    by_cases h1 : strTrim st.content = ""
    · have h2 : st.images ≠ [] := by
        intro hnil
        have hrej : ContentBlockEditor.handleSaveRun e st = (none, st) := by
          simp [ContentBlockEditor.handleSaveRun, h1, hnil]
        rw [hrej] at hsave
        simp at hsave
      refine Or.inr ⟨st.images, ?_, h2⟩
      have hlen : 0 < st.images.length := List.length_pos.mpr h2
      simp [himg, hlen]
    · refine Or.inl ?_
      intro hcontent
      have hc0 : st.content = "" := hcontent
      rw [hc0] at h1
      exact h1 rfl

/-- Witness for C1 at concrete states: the empty state is rejected
unchanged; an image-only state saves; a text-only state saves and implies
the disjunction; with the toggle on the emitted block carries the
images. -/
theorem c1_save_validation_amended_witness :
    ContentBlockEditor.handleSaveRun true initialEditorState =
      (none, initialEditorState) ∧
    (ContentBlockEditor.handleSaveRun true
      { initialEditorState with
        images := ["u"]
        imageLinks := [""] }).1.isSome = true ∧
    (ContentBlockEditor.handleSaveRun true
      { initialEditorState with content := "hello" }).1.isSome = true ∧
    (strTrim ({ initialEditorState with
        content := "hello" } : EditorState).content ≠ "" ∨
      ({ initialEditorState with
        content := "hello" } : EditorState).images ≠ []) ∧
    (c1ToggleOnBlock.content ≠ "" ∨
      ∃ l, c1ToggleOnBlock.images = some l ∧ l ≠ []) := by
  refine ⟨c1_save_validation_amended.1 true initialEditorState
      (by decide) (by decide),
    c1_save_validation_amended.2.1 true _ (by decide) (by decide),
    c1_save_validation_amended.2.2.1 true _ (by decide),
    c1_save_validation_amended.2.2.2.1 true _ (by decide),
    c1_save_validation_amended.2.2.2.2 true c1ToggleOnState c1ToggleOnBlock
      (by decide) (by decide)⟩

/-- C2: a batch with any file failing the client type/size pre-check
changes nothing and issues no network request; a batch passing the
pre-check, with a token present, issues exactly one request per file in
order, and appends exactly the successful uploads' references to `images`,
with matching empty link placeholders appended to `imageLinks`. -/
theorem c2_upload_batch (token : Option String)
    (batch : List (UploadFile × ServerResp)) (st : EditorState) :
    ((∃ fr ∈ batch, ContentBlockEditor.clientFileValid fr.1 = false) →
      ContentBlockEditor.handleFileUpload token batch st = (st, [])) ∧
    ((∀ fr ∈ batch, ContentBlockEditor.clientFileValid fr.1 = true) →
      token.isSome = true →
      (ContentBlockEditor.handleFileUpload token batch st).2 =
        batch.map Prod.fst ∧
      (ContentBlockEditor.handleFileUpload token batch st).1.images =
        st.images ++ ContentBlockEditor.uploadResults batch ∧
      (ContentBlockEditor.handleFileUpload token batch st).1.imageLinks =
        st.imageLinks ++
          List.replicate (ContentBlockEditor.uploadResults batch).length "") := by
  constructor
  · rintro ⟨fr, hmem, hbad⟩
    have hall : (batch.all fun g => ContentBlockEditor.clientFileValid g.1) =
        false :=
      List.all_eq_false.mpr ⟨fr, hmem, by simp [hbad]⟩
    have hne : batch.isEmpty = false := by
      cases batch
      · cases hmem
      · rfl
    simp [ContentBlockEditor.handleFileUpload, hne, hall]
  · intro hgood htok
    obtain ⟨tok, rfl⟩ := Option.isSome_iff_exists.mp htok
    have hall : (batch.all fun g => ContentBlockEditor.clientFileValid g.1) =
        true :=
      List.all_eq_true.mpr fun g hg => hgood g hg
    by_cases hemp : batch.isEmpty
    · have hb : batch = [] := by
        cases batch
        · rfl
        · simp at hemp
      subst hb
      refine ⟨rfl, ?_, ?_⟩ <;>
        simp [ContentBlockEditor.handleFileUpload,
          ContentBlockEditor.uploadResults]
    · refine ⟨?_, ?_, ?_⟩ <;>
        simp [ContentBlockEditor.handleFileUpload, hemp, hall]

/-- Witness for C2: the batch holding one oversized and two valid files
uploads nothing and issues no requests; the valid batch with a failing
middle upload issues all three requests and appends exactly the two
successful references. -/
theorem c2_upload_batch_witness :
    ContentBlockEditor.handleFileUpload (some "t") c2BadBatch
      initialEditorState = (initialEditorState, []) ∧
    (ContentBlockEditor.handleFileUpload (some "t") c2GoodBatch
      initialEditorState).2 = c2GoodBatch.map Prod.fst ∧
    (ContentBlockEditor.handleFileUpload (some "t") c2GoodBatch
      initialEditorState).1.images =
      initialEditorState.images ++
        ContentBlockEditor.uploadResults c2GoodBatch ∧
    ContentBlockEditor.uploadResults c2GoodBatch = ["u1", "u3"] := by
  refine ⟨(c2_upload_batch (some "t") c2BadBatch initialEditorState).1
      ⟨(fileBig, .ok "u0"), by decide, by decide⟩, ?_, ?_, by decide⟩
  · exact ((c2_upload_batch (some "t") c2GoodBatch initialEditorState).2
      (by decide) (by decide)).1
  · exact ((c2_upload_batch (some "t") c2GoodBatch initialEditorState).2
      (by decide) (by decide)).2.1

/-- C4: removal at a valid index keeps `images` and `imageLinks`
index-aligned and equal in length, both losing exactly position `i` with
later entries shifting down; and removing position 1 from `[A, B, C]` /
`["", "x", ""]` gives `[A, C]` / `["", ""]`. -/
theorem c4_remove_alignment (images links : List String) (i : Nat)
    (hlen : links.length = images.length) (hi : i < images.length) :
    (ContentBlockEditor.removeAtIndex images i).length =
      images.length - 1 ∧
    (ContentBlockEditor.removeAtIndex links i).length =
      (ContentBlockEditor.removeAtIndex images i).length ∧
    ContentBlockEditor.removeAtIndex images i =
      images.take i ++ images.drop (i + 1) ∧
    ContentBlockEditor.removeAtIndex links i =
      links.take i ++ links.drop (i + 1) ∧
    ContentBlockEditor.removeAtIndex ["A", "B", "C"] 1 = ["A", "C"] ∧
    ContentBlockEditor.removeAtIndex ["", "x", ""] 1 = ["", ""] := by
  have hi2 : i < links.length := by omega
  have h1 := List.length_eraseIdx_add_one hi
  have h2 := List.length_eraseIdx_add_one hi2
  simp only [removeAtIndex_eq_eraseIdx]
  refine ⟨by omega, by omega, ?_, ?_, by decide, by decide⟩
  · exact List.eraseIdx_eq_take_drop_succ ..
  · exact List.eraseIdx_eq_take_drop_succ ..

/-- Witness for C4 at `images = [A, B, C]`, `imageLinks = ["", "x", ""]`,
removal index 1. -/
theorem c4_remove_alignment_witness :
    (ContentBlockEditor.removeAtIndex ["A", "B", "C"] 1).length =
      (["A", "B", "C"] : List String).length - 1 ∧
    (ContentBlockEditor.removeAtIndex ["", "x", ""] 1).length =
      (ContentBlockEditor.removeAtIndex ["A", "B", "C"] 1).length ∧
    ContentBlockEditor.removeAtIndex ["A", "B", "C"] 1 =
      (["A", "B", "C"] : List String).take 1 ++
        (["A", "B", "C"] : List String).drop 2 ∧
    ContentBlockEditor.removeAtIndex ["", "x", ""] 1 =
      (["", "x", ""] : List String).take 1 ++
        (["", "x", ""] : List String).drop 2 ∧
    ContentBlockEditor.removeAtIndex ["A", "B", "C"] 1 = ["A", "C"] ∧
    ContentBlockEditor.removeAtIndex ["", "x", ""] 1 = ["", ""] :=
  c4_remove_alignment ["A", "B", "C"] ["", "x", ""] 1 (by decide) (by decide)

/-- C5: removing the image at the last index while it is also the preview
index shrinks the images sequence by one and clamps the preview index to
`max(0, newLength - 1)` where `newLength` is the post-removal length. -/
theorem c5_preview_clamp (st : EditorState) (i : Nat)
    (hlen : 1 ≤ st.images.length)
    (hp : st.previewIndex = st.images.length - 1)
    (hi : i = st.images.length - 1) :
    (ContentBlockEditor.handleRemoveImage st i).images.length =
      st.images.length - 1 ∧
    ((ContentBlockEditor.handleRemoveImage st i).previewIndex : Int) =
      max 0 (((st.images.length - 1 : Nat) : Int) - 1) := by
  constructor
  · simp only [ContentBlockEditor.handleRemoveImage,
      removeAtIndex_eq_eraseIdx]
    have h := List.length_eraseIdx_add_one
      (show i < st.images.length by omega)
    omega
  · simp only [ContentBlockEditor.handleRemoveImage]
    rw [if_pos (by rw [hp]; omega)]
    rw [Int.toNat_of_nonneg (le_max_left 0 _)]
    omega

/-- Witness for C5 at a two-image state previewing index 1, removing
index 1. -/
theorem c5_preview_clamp_witness :
    (ContentBlockEditor.handleRemoveImage c5State 1).images.length =
      c5State.images.length - 1 ∧
    ((ContentBlockEditor.handleRemoveImage c5State 1).previewIndex : Int) =
      max 0 (((c5State.images.length - 1 : Nat) : Int) - 1) :=
  c5_preview_clamp c5State 1 (by decide) (by decide) (by decide)

/-- C6: the `hasImages` toggle changes only the `hasImages` flag — images,
links, text, duration, block type and preview index are untouched — and
the stored images are included in the emitted block's `images` field
exactly on saves performed with the toggle on. -/
theorem c6_toggle_is_projection :
    (∀ (st : EditorState) (b : Bool),
      (ContentBlockEditor.setHasImagesToggle st b).hasImages = b ∧
      (ContentBlockEditor.setHasImagesToggle st b).images = st.images ∧
      (ContentBlockEditor.setHasImagesToggle st b).imageLinks =
        st.imageLinks ∧
      (ContentBlockEditor.setHasImagesToggle st b).content = st.content ∧
      (ContentBlockEditor.setHasImagesToggle st b).blockType =
        st.blockType ∧
      (ContentBlockEditor.setHasImagesToggle st b).hasDuration =
        st.hasDuration ∧
      (ContentBlockEditor.setHasImagesToggle st b).duration = st.duration ∧
      (ContentBlockEditor.setHasImagesToggle st b).previewIndex =
        st.previewIndex) ∧
    (∀ (e : Bool) (st : EditorState) (b : SavedBlock),
      st.hasImages = false →
      (ContentBlockEditor.handleSaveRun e st).1 = some b →
      b.images = none) ∧
    (∀ (e : Bool) (st : EditorState) (b : SavedBlock),
      st.hasImages = true → st.images ≠ [] →
      (ContentBlockEditor.handleSaveRun e st).1 = some b →
      b.images = some st.images) := by
  refine ⟨fun st b => ⟨rfl, rfl, rfl, rfl, rfl, rfl, rfl, rfl⟩, ?_, ?_⟩
  · intro e st b himg hsave
    rw [handleSaveRun_emit e st b hsave]
    simp [himg]
  · intro e st b himg hne hsave
    rw [handleSaveRun_emit e st b hsave]
    have hlen : 0 < st.images.length := List.length_pos.mpr hne
    simp [himg, hlen]

/-- Witness for C6: saving `c1CounterexampleState` (toggle off) emits no
images field; saving `c1ToggleOnState` (toggle on) emits its image. -/
theorem c6_toggle_is_projection_witness :
    c1CounterexampleBlock.images = none ∧
    c1ToggleOnBlock.images = some c1ToggleOnState.images := by
  refine ⟨c6_toggle_is_projection.2.1 true c1CounterexampleState
      c1CounterexampleBlock (by decide) (by decide),
    c6_toggle_is_projection.2.2 true c1ToggleOnState c1ToggleOnBlock
      (by decide) (by decide) (by decide)⟩

/-- C7: opening the lightbox seeds its index from the carousel's
`activeIndex` at that moment; lightbox next, previous and thumbnail
selection never change the carousel's `activeIndex`; and the two indices
do not stay synchronized afterwards. -/
theorem c7_lightbox_seeding_independence :
    (∀ bv : BlockView,
      (ContentBlock.openLightbox bv).lightboxIndex = bv.activeIndex ∧
      (ContentBlock.openLightbox bv).lightboxOpen = true ∧
      (ContentBlock.openLightbox bv).activeIndex = bv.activeIndex) ∧
    (∀ (total : Nat) (bv : BlockView),
      (ContentBlock.lightboxNextOp total bv).activeIndex = bv.activeIndex ∧
      (ContentBlock.lightboxPreviousOp total bv).activeIndex =
        bv.activeIndex) ∧
    (∀ (bv : BlockView) (i : Nat),
      (ContentBlock.lightboxSelectThumb bv i).activeIndex =
        bv.activeIndex) ∧
    (∃ (total : Nat) (bv : BlockView),
      (ContentBlock.lightboxNextOp total
        (ContentBlock.openLightbox bv)).lightboxIndex ≠
      (ContentBlock.lightboxNextOp total
        (ContentBlock.openLightbox bv)).activeIndex) := by
  refine ⟨fun bv => ⟨rfl, rfl, rfl⟩, fun total bv => ⟨rfl, rfl⟩,
    fun bv i => rfl, ⟨2, ⟨0, false, 0⟩, by decide⟩⟩

/-- C8: while open, Escape closes the lightbox; the arrow keys are inert
when at most one image exists; with more than one image and an in-range
index, ArrowRight and ArrowLeft move circularly by plus and minus one
modulo the image count; and opening at index 2 of a 5-image sequence and
pressing ArrowRight three times yields index 0. -/
theorem c8_lightbox_keyboard :
    (∀ (total : Nat) (lb : LightboxState), lb.isOpen = true →
      ImageLightbox.pressKey total "Escape" lb =
        { lb with isOpen := false }) ∧
    (∀ (total : Nat) (lb : LightboxState), lb.isOpen = true → total ≤ 1 →
      ImageLightbox.pressKey total "ArrowLeft" lb = lb ∧
      ImageLightbox.pressKey total "ArrowRight" lb = lb) ∧
    (∀ (total : Nat) (lb : LightboxState), lb.isOpen = true → 1 < total →
      lb.currentIndex < total →
      (ImageLightbox.pressKey total "ArrowRight" lb).currentIndex =
        (lb.currentIndex + 1) % total ∧
      (ImageLightbox.pressKey total "ArrowLeft" lb).currentIndex =
        (lb.currentIndex + total - 1) % total) ∧
    (ImageLightbox.pressKey 5 "ArrowRight" (ImageLightbox.pressKey 5
      "ArrowRight" (ImageLightbox.pressKey 5 "ArrowRight"
        { isOpen := true, currentIndex := 2 }))).currentIndex = 0 := by
  refine ⟨?_, ?_, ?_, by decide⟩
  · intro total lb hopen
    simp [ImageLightbox.pressKey, hopen]
  · intro total lb hopen htot
    have h1 : decide (total > 1) = false := by
      simp only [decide_eq_false_iff_not]
      omega
    constructor <;> simp [ImageLightbox.pressKey, hopen, h1]
  · intro total lb hopen htot hidx
    have h1 : decide (total > 1) = true := by simpa using htot
    constructor
    · simp [ImageLightbox.pressKey, hopen, h1,
        lightboxNext_eq_mod total _ hidx]
    · simp [ImageLightbox.pressKey, hopen, h1,
        lightboxPrevious_eq_mod total _ hidx]

/-- Witness for C8 at a 3-image open lightbox on index 2 and a 1-image
open lightbox. -/
theorem c8_lightbox_keyboard_witness :
    ImageLightbox.pressKey 3 "Escape"
      { isOpen := true, currentIndex := 2 } =
      { isOpen := false, currentIndex := 2 } ∧
    ImageLightbox.pressKey 1 "ArrowLeft"
      { isOpen := true, currentIndex := 0 } =
      { isOpen := true, currentIndex := 0 } ∧
    (ImageLightbox.pressKey 3 "ArrowRight"
      { isOpen := true, currentIndex := 2 }).currentIndex = (2 + 1) % 3 := by
  refine ⟨c8_lightbox_keyboard.1 3 { isOpen := true, currentIndex := 2 }
      (by decide),
    (c8_lightbox_keyboard.2.1 1 { isOpen := true, currentIndex := 0 }
      (by decide) (by decide)).1,
    (c8_lightbox_keyboard.2.2.1 3 { isOpen := true, currentIndex := 2 }
      (by decide) (by decide) (by decide)).1⟩

/-- C9: the profile GET never returns an error response — every backend
outcome yields a 200 JSON document; the empty-table case reaches the
default-document insert and returns the default; every thrown backend
failure also returns the default; a stored document is returned as is. -/
theorem c9_profile_get_graceful :
    (∀ (c : Except String Unit) (s : Except String (Option String))
        (i : Except String Unit),
      ∃ d, (ProfileRoute.GET c s i).1 = .jsonOk d) ∧
    (∀ i : Except String Unit,
      ProfileRoute.GET (.ok ()) (.ok none) i =
        (.jsonOk defaultProfile, true)) ∧
    (∀ (e : String) (s : Except String (Option String))
        (i : Except String Unit),
      ProfileRoute.GET (.error e) s i = (.jsonOk defaultProfile, false)) ∧
    (∀ (e : String) (i : Except String Unit),
      ProfileRoute.GET (.ok ()) (.error e) i =
        (.jsonOk defaultProfile, false)) ∧
    (∀ d : String,
      ProfileRoute.GET (.ok ()) (.ok (some d)) (.ok ()) =
        (.jsonOk d, false)) := by
  refine ⟨?_, ?_, fun e s i => rfl, fun e i => rfl, fun d => rfl⟩
  · intro c s i
    rcases c with e | u
    · exact ⟨defaultProfile, rfl⟩
    · rcases s with e | os
      · exact ⟨defaultProfile, rfl⟩
      · rcases os with _ | d
        · rcases i with e | u
          · exact ⟨defaultProfile, rfl⟩
          · exact ⟨defaultProfile, rfl⟩
        · exact ⟨d, rfl⟩
  · intro i
    rcases i with e | u
    · rfl
    · rfl

/-- C10: the client-side pre-check and the server-side upload validation
accept exactly the same files — both accept precisely the five listed MIME
types and reject any file larger than `5 * 1024 * 1024` bytes. -/
theorem c10_client_server_validation_agree :
    (∀ f : UploadFile, ContentBlockEditor.clientFileValid f =
      UploadRoute.serverValidationPasses f) ∧
    (∀ f : UploadFile, ContentBlockEditor.clientFileValid f = true ↔
      (f.mime ∈ (["image/jpeg", "image/jpg", "image/png", "image/gif",
        "image/webp"] : List String) ∧ f.size ≤ 5 * 1024 * 1024)) ∧
    (∀ f : UploadFile, UploadRoute.serverValidationPasses f = true ↔
      (f.mime ∈ (["image/jpeg", "image/jpg", "image/png", "image/gif",
        "image/webp"] : List String) ∧ f.size ≤ 5 * 1024 * 1024)) := by
  refine ⟨fun f => rfl, ?_, ?_⟩
  · intro f
    simp [ContentBlockEditor.clientFileValid, ContentBlockEditor.validTypes,
      ContentBlockEditor.maxSize, List.contains, Nat.not_lt]
  · intro f
    simp [UploadRoute.serverValidationPasses, UploadRoute.validTypes,
      UploadRoute.maxSize, List.contains, Nat.not_lt]

end FriedProtato
